import Mathlib

/-!
Verification development for the mcp-shrimp-task-manager scoring pipeline.

This file gives a shallow embedding, in Lean 4, of the parts of the
repository relevant to the frozen claims:

* the anti-obfuscation validation utilities (validateTaskEvidence,
  detectInconsistencies, applyHonestIncentives,
  performAntiObfuscationValidation) from the anti-obfuscation module;
* the cognitive router (CognitiveRouter.assessTaskComplexity) from
  src/tools/cognitiveRouter.ts together with the complexity thresholds
  from src/types/index.ts;
* the debate-protocol configuration system (DebateConfigValidator.validate,
  DebateConfigLoader.updateConfig / mergeConfig) from
  src/config/debateProtocol.ts;
* updateTask from src/models/taskModel.ts.

Modelling conventions: JavaScript numbers are modelled by the rationals
(the arithmetic performed by the code is exact at this scale); free text
is modelled as a list of characters; JavaScript Math.round, which sends
x to the floor of x + 1/2, is modelled by Mathlib's round; optional
fields are modelled by Option; strings pushed by the code onto issue,
pattern and justification lists are modelled by inductive tags carrying
the data interpolated into the string, so that list lengths and
memberships agree with the source.  On optional string fields the source
tests JavaScript truthiness, under which both an absent field and the
empty string are falsy; presentText models exactly that test.
-/

/-! The batteries library seals the arithmetic of the rationals behind
an irreducibility attribute; the concrete evaluations below need it
reducible again. -/

unseal Rat.add Rat.sub Rat.mul Rat.inv

/-- ASCII lower-casing of a text, as performed by toLowerCase on the
ASCII strings manipulated by the source. -/
def lowerText (s : List Char) : List Char :=
  s.map Char.toLower

/-- The characters matched by the regular expression class backslash-w
in JavaScript: ASCII letters, digits and underscore. -/
def isWordChar (c : Char) : Bool :=
  (('a' ≤ c && c ≤ 'z') || ('A' ≤ c && c ≤ 'Z') || ('0' ≤ c && c ≤ '9') || c = '_')

/-- The usual whitespace characters matched by backslash-s. -/
def isSpaceChar (c : Char) : Bool :=
  (c = ' ' || c = '\t' || c = '\n' || c = '\r')

/-- Does the needle occur at the head of the haystack? -/
def leadMatch : List Char → List Char → Bool
  | [], _ => true
  | _ :: _, [] => false
  | a :: as, b :: bs => a = b && leadMatch as bs

/-- Substring containment, the semantics of the JavaScript method
includes on strings. -/
def containsSub (needle : List Char) : List Char → Bool
  | [] => leadMatch needle []
  | c :: rest => leadMatch needle (c :: rest) || containsSub needle rest

/-- Splits a text at the characters satisfying p, dropping empty
tokens.  The source splits with a regular expression and immediately
filters the tokens through a positive length bound, so dropping empty
tokens here is observationally identical. -/
def splitTokensAux (p : Char → Bool) : List Char → List Char → List (List Char)
  | [], acc => if acc.isEmpty then [] else [acc.reverse]
  | c :: rest, acc =>
    if p c then
      (if acc.isEmpty then splitTokensAux p rest [] else acc.reverse :: splitTokensAux p rest [])
    else
      splitTokensAux p rest (c :: acc)

/-- Splits a text at the characters satisfying p, dropping empty tokens. -/
def splitDrop (p : Char → Bool) (s : List Char) : List (List Char) :=
  splitTokensAux p s []

/-- Removes leading and trailing whitespace, the semantics of trim. -/
def trimText (s : List Char) : List Char :=
  ((s.dropWhile isSpaceChar).reverse.dropWhile isSpaceChar).reverse

/-- Deduplication keeping the first occurrence of every element, the
iteration order of a JavaScript Set built by insertion. -/
def dedupSeen : List (List Char) → List (List Char) → List (List Char)
  | _, [] => []
  | seen, x :: xs =>
    if seen.contains x then dedupSeen seen xs else x :: dedupSeen (x :: seen) xs

/-- The stop-word list of isCommonWord in the anti-obfuscation module. -/
def stopWords : List (List Char) :=
  (["the", "and", "or", "but", "in", "on", "at", "to", "for", "of", "with", "by",
    "this", "that", "these", "those", "is", "are", "was", "were", "be", "been",
    "have", "has", "had", "do", "does", "did", "will", "would", "could", "should",
    "may", "might", "can", "must", "shall", "need", "use", "used", "using",
    "make", "made", "get", "got", "take", "took", "come", "came", "go", "went"]).map String.data

/-- Embedding of isCommonWord from the anti-obfuscation module. -/
def isCommonWord (word : List Char) : Bool :=
  stopWords.contains word

/-- Embedding of extractKeywords from the anti-obfuscation module:
lower-case the text, replace every character that is neither a word
character nor whitespace by a space, split on whitespace, keep the
tokens longer than two characters that are not stop words, and
deduplicate keeping first occurrences. -/
def extractKeywords (text : List Char) : List (List Char) :=
  let cleaned := (lowerText text).map (fun c => if isWordChar c || isSpaceChar c then c else ' ')
  let words := (splitDrop isSpaceChar cleaned).filter (fun word => 2 < word.length && !isCommonWord word)
  dedupSeen [] words

/-- JavaScript truthiness of an optional string field: an absent field
and the empty string are both falsy. -/
def presentText : Option (List Char) → Bool
  | some s => !s.isEmpty
  | none => false

/-! Data model from src/types/index.ts.  The development lives in the
Shrimp namespace because the name Task is taken by the Lean core. -/

namespace Shrimp

/-- Embedding of the TaskStatus enum. -/
inductive TaskStatus
  | pending
  | inProgress
  | completed
  | blocked
deriving DecidableEq, Repr

/-- Embedding of the TaskComplexityLevel enum. -/
inductive TaskComplexityLevel
  | low
  | medium
  | high
  | veryHigh
deriving DecidableEq, Repr

/-! Embedding of the TaskComplexityThresholds constants. -/

namespace TaskComplexityThresholds

def DESCRIPTION_LENGTH_MEDIUM : Nat := 500

def DESCRIPTION_LENGTH_HIGH : Nat := 1000

def DESCRIPTION_LENGTH_VERY_HIGH : Nat := 2000

def DEPENDENCIES_COUNT_MEDIUM : Nat := 2

def DEPENDENCIES_COUNT_HIGH : Nat := 5

def DEPENDENCIES_COUNT_VERY_HIGH : Nat := 10

def NOTES_LENGTH_MEDIUM : Nat := 200

def NOTES_LENGTH_HIGH : Nat := 500

def NOTES_LENGTH_VERY_HIGH : Nat := 1000

end TaskComplexityThresholds

/-- Embedding of the TaskDependency record. -/
structure TaskDependency where
  taskId : String
deriving DecidableEq, Repr

/-- Embedding of the RelatedFileType enum. -/
inductive RelatedFileType
  | toModify
  | reference
  | create
  | dependency
  | other
deriving DecidableEq, Repr

/-- Embedding of the RelatedFile record. -/
structure RelatedFile where
  path : String
  type : RelatedFileType
  description : Option (List Char)
  lineStart : Option Nat
  lineEnd : Option Nat
deriving DecidableEq, Repr

/-- System recommendation produced by the cognitive router. -/
inductive SystemRecommendation
  | system1
  | system2
  | hybrid
deriving DecidableEq, Repr

/-- Backend target produced by the cognitive router. -/
inductive McpServerTarget
  | supabase
  | graphiti
  | hybrid
deriving DecidableEq, Repr

/-- The justification strings pushed by assessTaskComplexity, one tag
per distinct string literal of the source. -/
inductive Justification
  | lowComplexityFast
  | highThroughputSupabase
  | mediumHybridCoordination
  | initialSupabaseThenGraphiti
  | highDeliberative
  | episodicGraphiti
  | temporalContextDetected
deriving DecidableEq, Repr

/-- Metrics block of a TaskComplexityAssessment. -/
structure ComplexityMetrics where
  descriptionLength : Nat
  dependenciesCount : Nat
  notesLength : Nat
  hasNotes : Bool
deriving DecidableEq, Repr

/-- Embedding of the CognitiveRoutingAssessment record returned by
assessTaskComplexity. -/
structure CognitiveRoutingAssessment where
  level : TaskComplexityLevel
  metrics : ComplexityMetrics
  recommendations : List Justification
  systemRecommendation : SystemRecommendation
  mcpServerTarget : McpServerTarget
  routingJustification : List Justification
  episodicMemoryRequired : Bool
  temporalContextRequired : Bool
  complexityScore : Nat
deriving DecidableEq, Repr

/-- Risk levels of AntiObfuscationResult.manipulationRisk. -/
inductive ManipulationRisk
  | low
  | medium
  | high
deriving DecidableEq, Repr

/-- Verification method tag of TaskCompletionMetadata. -/
inductive VerificationMethod
  | standard
  | debateProtocol
deriving DecidableEq, Repr

/-- Embedding of the TaskCompletionMetadata record (the nested analysis
summaries are kept abstract as optional score data, enough to carry the
field through updateTask). -/
structure TaskCompletionMetadata where
  completionTimestamp : Nat
  verificationMethod : VerificationMethod
  finalScore : ℚ
  originalScore : ℚ
  completionConfidence : ManipulationRisk
deriving DecidableEq, Repr

/-- Embedding of the Task record from src/types/index.ts.  Timestamps
are modelled as natural numbers.  The optional cognitiveRouting field is
the assessment attached by the task model at creation time. -/
structure Task where
  id : String
  name : List Char
  description : List Char
  notes : Option (List Char)
  status : TaskStatus
  dependencies : List TaskDependency
  createdAt : Nat
  updatedAt : Nat
  completedAt : Option Nat
  summary : Option (List Char)
  relatedFiles : Option (List RelatedFile)
  analysisResult : Option (List Char)
  implementationGuide : Option (List Char)
  verificationCriteria : Option (List Char)
  completionMetadata : Option TaskCompletionMetadata
  cognitiveRouting : Option CognitiveRoutingAssessment
deriving DecidableEq, Repr

/-! Embedding of CognitiveRouter.assessTaskComplexity from
src/tools/cognitiveRouter.ts. -/

/-- The temporal keyword vocabulary of assessTaskComplexity. -/
def temporalKeywords : List (List Char) :=
  (["temporal", "time", "sequence", "history", "memory", "context", "knowledge"]).map String.data

/-- Does the task carry temporal context?  The source tests, for some
temporal keyword, whether the lower-cased description contains it, or
the notes field is truthy and its lower-cased text contains it. -/
def hasTemporalContext (task : Task) : Bool :=
  temporalKeywords.any (fun keyword =>
    containsSub keyword (lowerText task.description) ||
    (match task.notes with
     | some n => containsSub keyword (lowerText n)
     | none => false))

/-- The complexity score accumulated by assessTaskComplexity out of
its four weighted signals: the description-length bucket, the
dependency-count bucket, the notes-length bucket and the temporal
keyword signal. -/
def complexityScoreOf (task : Task) : Nat :=
  (if task.description.length < TaskComplexityThresholds.DESCRIPTION_LENGTH_MEDIUM then 10
   else if task.description.length < TaskComplexityThresholds.DESCRIPTION_LENGTH_HIGH then 30
   else 40) +
  (if task.dependencies.length < TaskComplexityThresholds.DEPENDENCIES_COUNT_MEDIUM then 5
   else if task.dependencies.length < TaskComplexityThresholds.DEPENDENCIES_COUNT_HIGH then 15
   else 30) +
  (if (task.notes.getD []).length > TaskComplexityThresholds.NOTES_LENGTH_HIGH then 20
   else if (task.notes.getD []).length > TaskComplexityThresholds.NOTES_LENGTH_MEDIUM then 10
   else 0) +
  (if hasTemporalContext task then 10 else 0)

/-- The level determination of assessTaskComplexity from the
complexity score, with its fixed cut points. -/
def levelOf (complexityScore : Nat) : TaskComplexityLevel :=
  if complexityScore ≤ 25 then .low
  else if complexityScore ≤ 50 then .medium
  else if complexityScore ≤ 75 then .high
  else .veryHigh

/-- The routing branch of assessTaskComplexity: from the level and the
temporal-context flag, the system recommendation, the backend target,
the episodic-memory flag and the justification list. -/
def routingOf (level : TaskComplexityLevel) (temporal : Bool) :
    SystemRecommendation × McpServerTarget × Bool × List Justification :=
  if level = .low then
    (.system1, .supabase, false, [.lowComplexityFast, .highThroughputSupabase])
  else if level = .medium then
    (.hybrid, .hybrid, false, [.mediumHybridCoordination, .initialSupabaseThenGraphiti])
  else
    (.system2, .graphiti, true,
      [.highDeliberative, .episodicGraphiti] ++
        (if temporal then [.temporalContextDetected] else []))

/-- Embedding of CognitiveRouter.assessTaskComplexity: the four
weighted scoring signals, the fixed level cut points, and the
level-to-target routing mapping. -/
def assessTaskComplexity (task : Task) : CognitiveRoutingAssessment :=
  let complexityScore := complexityScoreOf task
  let level := levelOf complexityScore
  let routed := routingOf level (hasTemporalContext task)
  { level := level
    metrics :=
      { descriptionLength := task.description.length
        dependenciesCount := task.dependencies.length
        notesLength := (task.notes.getD []).length
        hasNotes := presentText task.notes }
    recommendations := routed.2.2.2
    systemRecommendation := routed.1
    mcpServerTarget := routed.2.1
    routingJustification := routed.2.2.2
    episodicMemoryRequired := routed.2.2.1
    temporalContextRequired := hasTemporalContext task
    complexityScore := complexityScore }

/-! Embedding of the anti-obfuscation validation module. -/

/-- Detection sensitivity levels of the anti-obfuscation configuration. -/
inductive DetectionSensitivity
  | low
  | medium
  | high
deriving DecidableEq, Repr

/-- Truthfulness sub-weights of the anti-obfuscation configuration. -/
structure TruthfulnessWeights where
  consistencyWeight : ℚ
  evidenceWeight : ℚ
  implementationWeight : ℚ
deriving DecidableEq, Repr

/-- Embedding of the AntiObfuscationConfig record. -/
structure AntiObfuscationConfig where
  evidenceThreshold : ℚ
  manipulationDetectionSensitivity : DetectionSensitivity
  maxScoreDifference : ℚ
  suspiciousPatternKeywords : List (List Char)
  truthfulnessWeights : TruthfulnessWeights
deriving DecidableEq, Repr

/-- Embedding of DEFAULT_ANTI_OBFUSCATION_CONFIG. -/
def DEFAULT_ANTI_OBFUSCATION_CONFIG : AntiObfuscationConfig :=
  { evidenceThreshold := 70
    manipulationDetectionSensitivity := .medium
    maxScoreDifference := 25
    suspiciousPatternKeywords :=
      (["fake", "mock", "placeholder", "todo", "fixme", "hack",
        "temporary", "incomplete", "unfinished", "broken",
        "inconsistent", "contradictory", "misleading"]).map String.data
    truthfulnessWeights :=
      { consistencyWeight := 2/5
        evidenceWeight := 7/20
        implementationWeight := 1/4 } }

/-- The issue strings pushed by validateTaskEvidence, one tag per
string literal of the source. -/
inductive EvidenceIssue
  | descriptionMismatch
  | criteriaMismatch
  | guideMismatch
deriving DecidableEq, Repr

/-- Result record of validateTaskEvidence. -/
structure EvidenceValidation where
  score : ℚ
  issues : List EvidenceIssue
deriving DecidableEq, Repr

/-- Keyword coverage of a source text by a target text, the expression
the source computes three times inside validateTaskEvidence: the number
of the source's extracted keywords that also occur among the target's
extracted keywords, divided by the source keyword count floored at
one. -/
def coverageOf (source target : List Char) : ℚ :=
  ((extractKeywords source).filter
    (fun k => (extractKeywords target).contains k)).length /
    (max (extractKeywords source).length 1 : ℚ)

/-- Embedding of validateTaskEvidence: keyword-coverage checks of the
completion summary against the description, the verification criteria
and the implementation guide, each subtracting a fixed penalty from a
base of 100, floored at 0.  The checks on the two optional fields run
only when the field is truthy in the source, that is present and
non-empty. -/
def validateTaskEvidence (task : Task) (summary : List Char)
    (config : AntiObfuscationConfig) : EvidenceValidation :=
  let descriptionCoverage : ℚ := coverageOf task.description summary
  let score1 : ℚ := if descriptionCoverage < 3/10 then 100 - 20 else 100
  let issues1 : List EvidenceIssue :=
    if descriptionCoverage < 3/10 then [.descriptionMismatch] else []
  let afterCriteria : ℚ × List EvidenceIssue :=
    if presentText task.verificationCriteria then
      let criteriaAlignment : ℚ := coverageOf (task.verificationCriteria.getD []) summary
      if criteriaAlignment < 2/5 then (score1 - 15, issues1 ++ [.criteriaMismatch])
      else (score1, issues1)
    else (score1, issues1)
  let afterGuide : ℚ × List EvidenceIssue :=
    if presentText task.implementationGuide then
      let implementationAlignment : ℚ := coverageOf (task.implementationGuide.getD []) summary
      if implementationAlignment < 3/10 then
        (afterCriteria.1 - 10, afterCriteria.2 ++ [.guideMismatch])
      else afterCriteria
    else afterCriteria
  { score := max 0 afterGuide.1, issues := afterGuide.2 }

/-- The suspicious-pattern strings pushed by detectInconsistencies, one
tag per string template of the source, carrying the interpolated data. -/
inductive SuspiciousPattern
  | keywordHit (keyword : List Char)
  | repeatedPhrase (phrase : List Char)
  | contradiction (positive negative : List Char)
deriving DecidableEq, Repr

/-- The contradictory word pairs checked by detectInconsistencies. -/
def contradictoryPairs : List (List Char × List Char) :=
  [("completed".data, "incomplete".data),
   ("finished".data, "unfinished".data),
   ("working".data, "broken".data),
   ("implemented".data, "not implemented".data),
   ("successful".data, "failed".data)]

/-- Embedding of detectInconsistencies: suspicious-keyword hits, then
over-repeated phrases (a normalized phrase longer than ten characters
occurring more than three times), then contradictory word pairs. -/
def detectInconsistencies (text : List Char) (config : AntiObfuscationConfig) :
    List SuspiciousPattern :=
  let lowercaseText := lowerText text
  let keywordHits :=
    (config.suspiciousPatternKeywords.filter
      (fun keyword => containsSub (lowerText keyword) lowercaseText)).map .keywordHit
  let phrases :=
    (splitDrop (fun c => c = '.' || c = '!' || c = '?') text).filter
      (fun p => 0 < (trimText p).length)
  let normalized := phrases.map (fun p => lowerText (trimText p))
  let repeated :=
    ((dedupSeen [] normalized).filter
      (fun phrase => 3 < normalized.count phrase && 10 < phrase.length)).map .repeatedPhrase
  let contradictions :=
    contradictoryPairs.filterMap (fun pr =>
      if containsSub pr.1 lowercaseText && containsSub pr.2 lowercaseText then
        some (SuspiciousPattern.contradiction pr.1 pr.2)
      else none)
  keywordHits ++ repeated ++ contradictions

/-- The incentive-analysis strings pushed by applyHonestIncentives, one
tag per string template of the source. -/
inductive IncentiveNote
  | evidenceBonus (amount : ℚ)
  | evidencePenalty (amount : ℚ)
  | patternPenalty (count : Nat) (amount : ℚ)
  | honestyBonus
deriving DecidableEq, Repr

/-- Result record of applyHonestIncentives; the adjusted score is an
integer because the source rounds it with Math.round. -/
structure IncentiveResult where
  adjustedScore : ℤ
  incentiveAnalysis : List IncentiveNote
deriving DecidableEq, Repr

/-- Embedding of applyHonestIncentives: an evidence-consistency bonus
capped at 5 (or penalty capped at 15), a suspicious-pattern penalty of
at most 20 (or a flat honesty bonus of 2), a clamp of the result to the
interval from 0 to 100, and integer rounding. -/
def applyHonestIncentives (baseScore evidenceScore : ℚ)
    (suspiciousPatterns : List SuspiciousPattern)
    (config : AntiObfuscationConfig) : IncentiveResult :=
  let afterEvidence : ℚ × IncentiveNote :=
    if config.evidenceThreshold ≤ evidenceScore then
      let bonus := min 5 ((evidenceScore - config.evidenceThreshold) / 6)
      (baseScore + bonus, .evidenceBonus bonus)
    else
      let penalty := min 15 ((config.evidenceThreshold - evidenceScore) / 3)
      (baseScore - penalty, .evidencePenalty penalty)
  let afterPatterns : ℚ × IncentiveNote :=
    if 0 < suspiciousPatterns.length then
      let penalty := min 20 ((suspiciousPatterns.length : ℚ) * 4)
      (afterEvidence.1 - penalty, .patternPenalty suspiciousPatterns.length penalty)
    else
      (afterEvidence.1 + 2, .honestyBonus)
  let clamped := max 0 (min 100 afterPatterns.1)
  { adjustedScore := round clamped
    incentiveAnalysis := [afterEvidence.2, afterPatterns.2] }

/-- The truthfulness-indicator strings pushed by
performAntiObfuscationValidation. -/
inductive TruthIndicator
  | evidenceConsistent
  | noSuspiciousPatterns
  | incentiveImproved
  | incentive (note : IncentiveNote)
deriving DecidableEq, Repr

/-- Embedding of the AntiObfuscationResult record; its
suspiciousPatterns field concatenates the detected patterns with the
evidence issues, which the sum type records faithfully. -/
structure AntiObfuscationResult where
  evidenceConsistency : ℚ
  manipulationRisk : ManipulationRisk
  truthfulnessIndicators : List TruthIndicator
  suspiciousPatterns : List (SuspiciousPattern ⊕ EvidenceIssue)
deriving DecidableEq, Repr

/-- Embedding of performAntiObfuscationValidation: evidence validation,
pattern detection, honest incentives, then the manipulation-risk
classification and the indicator bookkeeping. -/
def performAntiObfuscationValidation (task : Task) (summary : List Char)
    (baseScore : ℚ) (config : AntiObfuscationConfig) : AntiObfuscationResult :=
  let evidenceValidation := validateTaskEvidence task summary config
  let suspiciousPatterns := detectInconsistencies summary config
  let incentiveResult :=
    applyHonestIncentives baseScore evidenceValidation.score suspiciousPatterns config
  let manipulationRisk : ManipulationRisk :=
    if 3 ≤ suspiciousPatterns.length ∨ evidenceValidation.score < 50 then .high
    else if 1 ≤ suspiciousPatterns.length ∨ evidenceValidation.score < config.evidenceThreshold then .medium
    else .low
  let truthfulnessIndicators : List TruthIndicator :=
    (if config.evidenceThreshold ≤ evidenceValidation.score then [.evidenceConsistent] else []) ++
    (if suspiciousPatterns.length = 0 then [.noSuspiciousPatterns] else []) ++
    (if baseScore ≤ (incentiveResult.adjustedScore : ℚ) then [.incentiveImproved] else [])
  { evidenceConsistency := evidenceValidation.score
    manipulationRisk := manipulationRisk
    truthfulnessIndicators :=
      truthfulnessIndicators ++ incentiveResult.incentiveAnalysis.map .incentive
    suspiciousPatterns :=
      suspiciousPatterns.map Sum.inl ++ evidenceValidation.issues.map Sum.inr }

/-- The full score-adjustment pipeline run by
performAntiObfuscationValidation, line for line: the adjusted score of
applyHonestIncentives applied to the evidence-consistency score and the
detected suspicious patterns. -/
def pipelineAdjustedScore (task : Task) (summary : List Char) (baseScore : ℚ)
    (config : AntiObfuscationConfig) : ℤ :=
  (applyHonestIncentives baseScore (validateTaskEvidence task summary config).score
    (detectInconsistencies summary config) config).adjustedScore

/-! Embedding of the debate-protocol configuration system from
src/config/debateProtocol.ts. -/

/-- Evidence requirement levels of an intensity profile. -/
inductive EvidenceRequirement
  | minimal
  | moderate
  | comprehensive
deriving DecidableEq, Repr

/-- Log verbosity levels of the performance section. -/
inductive LogLevel
  | error
  | warn
  | info
  | debug
deriving DecidableEq, Repr

/-- Weight block of a DebateIntensityConfig. -/
structure DebateWeights where
  prover : ℚ
  estimator : ℚ
  synthesis : ℚ
deriving DecidableEq, Repr

/-- Incentive block of a DebateIntensityConfig. -/
structure DebateIncentives where
  consensusBonus : ℚ
  conflictPenalty : ℚ
  scoreDiscrepancyPenalty : ℚ
  maxScoreDiscrepancy : ℚ
deriving DecidableEq, Repr

/-- Processing block of a DebateIntensityConfig. -/
structure DebateProcessing where
  requiredConsensusPoints : ℚ
  maxAllowedConflicts : ℚ
  evidenceRequirement : EvidenceRequirement
deriving DecidableEq, Repr

/-- Embedding of the DebateIntensityConfig record.  The incentive and
processing blocks are optional because a JavaScript object supplied at
run time may omit them, and the merge operation of the loader copies a
supplied profile object wholesale; the validator reads only the weight
block. -/
structure DebateIntensityConfig where
  weights : DebateWeights
  incentives : Option DebateIncentives
  processing : Option DebateProcessing
deriving DecidableEq, Repr

/-- Intensity-profile section of a DebateProtocolConfig. -/
structure IntensitySettings where
  light : DebateIntensityConfig
  moderate : DebateIntensityConfig
  rigorous : DebateIntensityConfig
deriving DecidableEq, Repr

/-- Anti-obfuscation section of a DebateProtocolConfig. -/
structure AntiObfuscationSection where
  enabled : Bool
  evidenceThreshold : ℚ
  manipulationSensitivity : DetectionSensitivity
  suspiciousPatternKeywords : List (List Char)
  truthfulnessWeights : TruthfulnessWeights
deriving DecidableEq, Repr

/-- Performance section of a DebateProtocolConfig. -/
structure PerformanceSection where
  maxProcessingTimeMs : ℚ
  maxRecommendations : ℚ
  enableAnalytics : Bool
  logLevel : LogLevel
deriving DecidableEq, Repr

/-- Confidence thresholds of the scoring section. -/
structure ConfidenceThresholds where
  low : ℚ
  medium : ℚ
  high : ℚ
deriving DecidableEq, Repr

/-- Scoring section of a DebateProtocolConfig. -/
structure ScoringSection where
  completionThreshold : ℚ
  confidenceThresholds : ConfidenceThresholds
  scoringPrecision : ℚ
deriving DecidableEq, Repr

/-- Embedding of the DebateProtocolConfig record. -/
structure DebateProtocolConfig where
  intensitySettings : IntensitySettings
  antiObfuscation : AntiObfuscationSection
  performance : PerformanceSection
  scoring : ScoringSection
deriving DecidableEq, Repr

/-- Embedding of DEFAULT_DEBATE_CONFIG. -/
def DEFAULT_DEBATE_CONFIG : DebateProtocolConfig :=
  { intensitySettings :=
      { light :=
          { weights := { prover := 2/5, estimator := 3/10, synthesis := 3/10 }
            incentives := some
              { consensusBonus := 3/2, conflictPenalty := 1,
                scoreDiscrepancyPenalty := 5, maxScoreDiscrepancy := 35 }
            processing := some
              { requiredConsensusPoints := 1, maxAllowedConflicts := 3,
                evidenceRequirement := .minimal } }
        moderate :=
          { weights := { prover := 7/20, estimator := 7/20, synthesis := 3/10 }
            incentives := some
              { consensusBonus := 2, conflictPenalty := 3/2,
                scoreDiscrepancyPenalty := 10, maxScoreDiscrepancy := 25 }
            processing := some
              { requiredConsensusPoints := 2, maxAllowedConflicts := 2,
                evidenceRequirement := .moderate } }
        rigorous :=
          { weights := { prover := 3/10, estimator := 2/5, synthesis := 3/10 }
            incentives := some
              { consensusBonus := 3, conflictPenalty := 2,
                scoreDiscrepancyPenalty := 15, maxScoreDiscrepancy := 20 }
            processing := some
              { requiredConsensusPoints := 3, maxAllowedConflicts := 1,
                evidenceRequirement := .comprehensive } } }
    antiObfuscation :=
      { enabled := true
        evidenceThreshold := 70
        manipulationSensitivity := .medium
        suspiciousPatternKeywords :=
          (["fake", "mock", "placeholder", "todo", "fixme", "hack",
            "temporary", "incomplete", "unfinished", "broken",
            "inconsistent", "contradictory", "misleading", "test",
            "dummy", "stub", "not implemented", "coming soon"]).map String.data
        truthfulnessWeights :=
          { consistencyWeight := 2/5, evidenceWeight := 7/20,
            implementationWeight := 1/4 } }
    performance :=
      { maxProcessingTimeMs := 5000, maxRecommendations := 5,
        enableAnalytics := true, logLevel := .info }
    scoring :=
      { completionThreshold := 80
        confidenceThresholds := { low := 75, medium := 85, high := 95 }
        scoringPrecision := 2 } }

/-- The validation-error strings produced by DebateConfigValidator, one
tag per string template of the source; the weightSum tag models the
message that a named intensity profile's weights do not sum to 1.0,
carrying the interpolated profile name and sum. -/
inductive ConfigError
  | weightSum (intensity : String) (sum : ℚ)
  | completionThresholdRange
  | evidenceThresholdRange
  | confidenceOrder
  | maxTimeNotPositive
  | maxRecommendationsNotPositive
deriving DecidableEq, Repr

/-- Result record of DebateConfigValidator.validate. -/
structure ValidationResult where
  isValid : Bool
  errors : List ConfigError
deriving DecidableEq, Repr

/-- The weight sum of an intensity profile. -/
def weightSum (settings : DebateIntensityConfig) : ℚ :=
  settings.weights.prover + settings.weights.estimator + settings.weights.synthesis

/-- Embedding of DebateConfigValidator.validate: the weight-sum check
over the three intensity profiles in declaration order, the two
threshold range checks, the confidence-threshold ordering check, and
the two positivity checks on the performance limits. -/
def validate (config : DebateProtocolConfig) : ValidationResult :=
  let weightErrors :=
    ([("light", config.intensitySettings.light),
      ("moderate", config.intensitySettings.moderate),
      ("rigorous", config.intensitySettings.rigorous)]).filterMap
      (fun entry =>
        if 1/100 < |weightSum entry.2 - 1| then
          some (ConfigError.weightSum entry.1 (weightSum entry.2))
        else none)
  let errors := weightErrors ++
    (if config.scoring.completionThreshold < 0 ∨ 100 < config.scoring.completionThreshold then
      [ConfigError.completionThresholdRange] else []) ++
    (if config.antiObfuscation.evidenceThreshold < 0 ∨ 100 < config.antiObfuscation.evidenceThreshold then
      [ConfigError.evidenceThresholdRange] else []) ++
    (if config.scoring.confidenceThresholds.medium ≤ config.scoring.confidenceThresholds.low ∨
        config.scoring.confidenceThresholds.high ≤ config.scoring.confidenceThresholds.medium then
      [ConfigError.confidenceOrder] else []) ++
    (if config.performance.maxProcessingTimeMs ≤ 0 then
      [ConfigError.maxTimeNotPositive] else []) ++
    (if config.performance.maxRecommendations ≤ 0 then
      [ConfigError.maxRecommendationsNotPositive] else [])
  { isValid := errors.isEmpty, errors := errors }

/-- A partial update of the intensity-profile section: the source type
is Partial of the section, and the loader spreads it over the base
section profile by profile, so each profile is optionally replaced
wholesale. -/
structure IntensitySettingsUpdate where
  light : Option DebateIntensityConfig
  moderate : Option DebateIntensityConfig
  rigorous : Option DebateIntensityConfig
deriving DecidableEq, Repr

/-- A partial update of a DebateProtocolConfig: the source type is
Partial of the record, making each top-level section optional. -/
structure DebateProtocolConfigUpdate where
  intensitySettings : Option IntensitySettingsUpdate
  antiObfuscation : Option AntiObfuscationSection
  performance : Option PerformanceSection
  scoring : Option ScoringSection
deriving DecidableEq, Repr

/-- Embedding of DebateConfigLoader.mergeConfig: each section of the
update replaces the corresponding section of the base when supplied,
and inside the intensity section each supplied profile replaces the
base profile wholesale. -/
def mergeConfig (base : DebateProtocolConfig) (updates : DebateProtocolConfigUpdate) :
    DebateProtocolConfig :=
  { intensitySettings :=
      match updates.intensitySettings with
      | none => base.intensitySettings
      | some u =>
        { light := u.light.getD base.intensitySettings.light
          moderate := u.moderate.getD base.intensitySettings.moderate
          rigorous := u.rigorous.getD base.intensitySettings.rigorous }
    antiObfuscation := updates.antiObfuscation.getD base.antiObfuscation
    performance := updates.performance.getD base.performance
    scoring := updates.scoring.getD base.scoring }

/-- Result record of DebateConfigLoader.updateConfig. -/
structure UpdateConfigResult where
  success : Bool
  errors : List ConfigError
deriving DecidableEq, Repr

/-- Embedding of DebateConfigLoader.updateConfig as a state-passing
function on the loader's stored configuration: merge, validate, and
either commit the merged configuration or keep the previous one. -/
def updateConfig (config : DebateProtocolConfig) (updates : DebateProtocolConfigUpdate) :
    UpdateConfigResult × DebateProtocolConfig :=
  if (validate (mergeConfig config updates)).isValid then
    ({ success := true, errors := [] }, mergeConfig config updates)
  else
    ({ success := false, errors := (validate (mergeConfig config updates)).errors }, config)

/-- Embedding of DebateConfigLoader.getConfig on the explicit state. -/
def getConfig (config : DebateProtocolConfig) : DebateProtocolConfig :=
  config

/-! Embedding of updateTask from src/models/taskModel.ts. -/

/-- A partial update of a Task, the argument type Partial of Task of
updateTask: a field is some value exactly when the corresponding key is
present on the update object. -/
structure TaskUpdates where
  id : Option String
  name : Option (List Char)
  description : Option (List Char)
  notes : Option (List Char)
  status : Option TaskStatus
  dependencies : Option (List TaskDependency)
  createdAt : Option Nat
  updatedAt : Option Nat
  completedAt : Option Nat
  summary : Option (List Char)
  relatedFiles : Option (List RelatedFile)
  analysisResult : Option (List Char)
  implementationGuide : Option (List Char)
  verificationCriteria : Option (List Char)
  completionMetadata : Option TaskCompletionMetadata
deriving DecidableEq, Repr

/-- The keys present on the update object, the value of Object.keys on
the updates argument. -/
def attemptedFields (updates : TaskUpdates) : List String :=
  (if updates.id.isSome then ["id"] else []) ++
  (if updates.name.isSome then ["name"] else []) ++
  (if updates.description.isSome then ["description"] else []) ++
  (if updates.notes.isSome then ["notes"] else []) ++
  (if updates.status.isSome then ["status"] else []) ++
  (if updates.dependencies.isSome then ["dependencies"] else []) ++
  (if updates.createdAt.isSome then ["createdAt"] else []) ++
  (if updates.updatedAt.isSome then ["updatedAt"] else []) ++
  (if updates.completedAt.isSome then ["completedAt"] else []) ++
  (if updates.summary.isSome then ["summary"] else []) ++
  (if updates.relatedFiles.isSome then ["relatedFiles"] else []) ++
  (if updates.analysisResult.isSome then ["analysisResult"] else []) ++
  (if updates.implementationGuide.isSome then ["implementationGuide"] else []) ++
  (if updates.verificationCriteria.isSome then ["verificationCriteria"] else []) ++
  (if updates.completionMetadata.isSome then ["completionMetadata"] else [])

/-- The fields a completed task still allows updates on. -/
def allowedFields : List String :=
  ["summary", "relatedFiles"]

/-- The object spread of the updates over a stored task followed by the
overriding updatedAt assignment, as written in updateTask. -/
def applyUpdates (task : Task) (updates : TaskUpdates) (now : Nat) : Task :=
  { id := updates.id.getD task.id
    name := updates.name.getD task.name
    description := updates.description.getD task.description
    notes := match updates.notes with | some v => some v | none => task.notes
    status := updates.status.getD task.status
    dependencies := updates.dependencies.getD task.dependencies
    createdAt := updates.createdAt.getD task.createdAt
    updatedAt := now
    completedAt := match updates.completedAt with | some v => some v | none => task.completedAt
    summary := match updates.summary with | some v => some v | none => task.summary
    relatedFiles := match updates.relatedFiles with | some v => some v | none => task.relatedFiles
    analysisResult := match updates.analysisResult with | some v => some v | none => task.analysisResult
    implementationGuide :=
      match updates.implementationGuide with | some v => some v | none => task.implementationGuide
    verificationCriteria :=
      match updates.verificationCriteria with | some v => some v | none => task.verificationCriteria
    completionMetadata :=
      match updates.completionMetadata with | some v => some v | none => task.completionMetadata
    cognitiveRouting := task.cognitiveRouting }

/-- Embedding of updateTask, with the on-disk task list passed and
returned explicitly in place of readTasks and writeTasks, and the
updatedAt timestamp passed as the current time: locate the task by id;
if it is completed and some attempted field is not allowed, return null
and leave the list untouched; otherwise apply the updates. -/
def updateTask (tasks : List Task) (taskId : String) (updates : TaskUpdates) (now : Nat) :
    List Task × Option Task :=
  match tasks.findIdx? (fun task => task.id = taskId) with
  | none => (tasks, none)
  | some taskIndex =>
    match tasks[taskIndex]? with
    | none => (tasks, none)
    | some stored =>
      if stored.status = TaskStatus.completed ∧
          ¬ ((attemptedFields updates).filter (fun field => ¬ allowedFields.contains field)).isEmpty
      then (tasks, none)
      else
        let updated := applyUpdates stored updates now
        (tasks.set taskIndex updated, some updated)

/-- The scenario-B task of the specification: a description of exactly
343 characters containing the words temporal, coordination and
architecture, no dependencies, and no notes. -/
def scenarioBTask : Task :=
  { id := "scenario-b"
    name := "Complex System Integration Task".data
    description := "temporal coordination architecture ".data ++ List.replicate 308 'x'
    notes := none
    status := .pending
    dependencies := []
    createdAt := 0
    updatedAt := 0
    completedAt := none
    summary := none
    relatedFiles := none
    analysisResult := none
    implementationGuide := none
    verificationCriteria := none
    completionMetadata := none
    cognitiveRouting := none }

/-! Claim C1: the arithmetic of applyHonestIncentives. -/

/-- Rounding to a given number of decimal digits, the reading of the
claim that the result is rounded to the configured scoring precision
(the configured scoringPrecision of the debate-protocol scoring section
is 2). -/
def roundToPrecision (x : ℚ) (precision : Nat) : ℚ :=
  (round (x * 10 ^ precision) : ℚ) / 10 ^ precision

/-- The evidence-consistency adjustment as worded by the claim: a bonus
proportional to the excess over the threshold capped at 5, otherwise a
penalty proportional to the deficit capped at 15. -/
def evidenceAdjustment (evidenceScore : ℚ) (config : AntiObfuscationConfig) : ℚ :=
  if config.evidenceThreshold ≤ evidenceScore then
    min 5 ((evidenceScore - config.evidenceThreshold) / 6)
  else
    -(min 15 ((config.evidenceThreshold - evidenceScore) / 3))

/-- The suspicious-pattern adjustment as worded by the claim: minus the
minimum of 20 and 4 times the pattern count when patterns were found,
else a flat bonus of 2. -/
def patternAdjustment (patternCount : Nat) : ℚ :=
  if 0 < patternCount then -(min 20 ((patternCount : ℚ) * 4)) else 2

/-- The adjusted score exactly as claim C1 states it, with the final
clamp to the interval from 0 to 100 followed by rounding to the
configured scoring precision. -/
def claimedAdjustedScore (baseScore evidenceScore : ℚ)
    (suspiciousPatterns : List SuspiciousPattern) (config : AntiObfuscationConfig)
    (precision : Nat) : ℚ :=
  roundToPrecision
    (max 0 (min 100 (baseScore + evidenceAdjustment evidenceScore config +
      patternAdjustment suspiciousPatterns.length))) precision

/-! Claim C6: the reference definition of validateTaskEvidence. -/

/-- The evidence score exactly as claim C6 states it, reading the
presence of the two optional fields as the fields being some value. -/
def claimedEvidenceScore (task : Task) (summary : List Char) : ℚ :=
  max 0 (100 -
    (if coverageOf task.description summary < 3/10 then 20 else 0) -
    (if task.verificationCriteria.isSome ∧
        coverageOf (task.verificationCriteria.getD []) summary < 2/5 then 15 else 0) -
    (if task.implementationGuide.isSome ∧
        coverageOf (task.implementationGuide.getD []) summary < 3/10 then 10 else 0))

/-- The evidence score as amended: the optional fields count only when
they are truthy in the JavaScript sense, present and non-empty. -/
def amendedEvidenceScore (task : Task) (summary : List Char) : ℚ :=
  max 0 (100 -
    (if coverageOf task.description summary < 3/10 then 20 else 0) -
    (if presentText task.verificationCriteria = true ∧
        coverageOf (task.verificationCriteria.getD []) summary < 2/5 then 15 else 0) -
    (if presentText task.implementationGuide = true ∧
        coverageOf (task.implementationGuide.getD []) summary < 3/10 then 10 else 0))

/-- A task whose verification criteria field is present but empty. -/
def emptyCriteriaTask : Task :=
  { id := "c6"
    name := "c6".data
    description := "alpha".data
    notes := none
    status := .pending
    dependencies := []
    createdAt := 0
    updatedAt := 0
    completedAt := none
    summary := none
    relatedFiles := none
    analysisResult := none
    implementationGuide := none
    verificationCriteria := some []
    completionMetadata := none
    cognitiveRouting := none }

/-! Claim C7: monotonicity of the pipeline in suspicious keywords. -/

/-- A task whose description consists of the single keyword fake. -/
def fakeDescriptionTask : Task :=
  { id := "c7"
    name := "c7".data
    description := "fake".data
    notes := none
    status := .pending
    dependencies := []
    createdAt := 0
    updatedAt := 0
    completedAt := none
    summary := none
    relatedFiles := none
    analysisResult := none
    implementationGuide := none
    verificationCriteria := none
    completionMetadata := none
    cognitiveRouting := none }

/-- A summary that already carries five suspicious keywords. -/
def fiveKeywordSummary : List Char :=
  "mock todo fixme hack temporary".data

/-! Claim C3: the weight-sum invariant of configuration updates. -/

/-- An intensity profile violates the weight-sum invariant when its
prover, estimator and synthesis weights differ from 1 by more than
0.01. -/
def weightSumViolated (settings : DebateIntensityConfig) : Prop :=
  1/100 < |weightSum settings - 1|

instance (settings : DebateIntensityConfig) : Decidable (weightSumViolated settings) := by
  unfold weightSumViolated
  infer_instance

/-- The scenario-E update: light-intensity weights one half, one half
and one fifth, summing to 1.2. -/
def scenarioEUpdate : DebateProtocolConfigUpdate :=
  { intensitySettings := some
      { light := some
          { weights := { prover := 1/2, estimator := 1/2, synthesis := 1/5 }
            incentives := none
            processing := none }
        moderate := none
        rigorous := none }
    antiObfuscation := none
    performance := none
    scoring := none }

/-! Claim C9: protection of completed tasks in updateTask. -/

/-- The empty update object. -/
def emptyTaskUpdates : TaskUpdates :=
  { id := none, name := none, description := none, notes := none,
    status := none, dependencies := none, createdAt := none,
    updatedAt := none, completedAt := none, summary := none,
    relatedFiles := none, analysisResult := none,
    implementationGuide := none, verificationCriteria := none,
    completionMetadata := none }

/-- A completed task used by the claim C9 witness. -/
def completedStoredTask : Task :=
  { id := "done-task"
    name := "done".data
    description := "a finished task".data
    notes := none
    status := .completed
    dependencies := []
    createdAt := 1
    updatedAt := 2
    completedAt := some 2
    summary := some "old summary".data
    relatedFiles := none
    analysisResult := none
    implementationGuide := none
    verificationCriteria := none
    completionMetadata := none
    cognitiveRouting := none }

/-! Theorems about the embedded operations, one per claim, with
their helper lemmas and witnesses. -/

example : extractKeywords "The fake data, and the FAKE data handling!".data =
    ["fake".data, "data".data, "handling".data] := by decide

example : containsSub "tempo".data "a temporal task".data = true := by decide
example : containsSub "tempo".data "a tempest".data = false := by decide

/-! Claim C4 and claim C5: level cut points and routing mapping of
assessTaskComplexity. -/

/-- Claim C4: for every task, the assessment of assessTaskComplexity
maps its complexity score to a level via the fixed cut points (at most
25 Low, at most 50 Medium, at most 75 High, else VeryHigh) and maps the
level to exactly one target: Low to the supabase target without
episodic memory, Medium to the hybrid target, High and VeryHigh to the
graphiti target with episodic memory required; the temporal-context
flag records the keyword detection, and the extra temporal
justification line appears exactly on the High and VeryHigh branches
when a temporal keyword was detected. -/
theorem assessTaskComplexity_level_and_routing (task : Task) :
    (assessTaskComplexity task).level =
      (if (assessTaskComplexity task).complexityScore ≤ 25 then TaskComplexityLevel.low
       else if (assessTaskComplexity task).complexityScore ≤ 50 then TaskComplexityLevel.medium
       else if (assessTaskComplexity task).complexityScore ≤ 75 then TaskComplexityLevel.high
       else TaskComplexityLevel.veryHigh) ∧
    ((assessTaskComplexity task).mcpServerTarget =
      match (assessTaskComplexity task).level with
      | TaskComplexityLevel.low => McpServerTarget.supabase
      | TaskComplexityLevel.medium => McpServerTarget.hybrid
      | TaskComplexityLevel.high => McpServerTarget.graphiti
      | TaskComplexityLevel.veryHigh => McpServerTarget.graphiti) ∧
    ((assessTaskComplexity task).systemRecommendation =
      match (assessTaskComplexity task).level with
      | TaskComplexityLevel.low => SystemRecommendation.system1
      | TaskComplexityLevel.medium => SystemRecommendation.hybrid
      | TaskComplexityLevel.high => SystemRecommendation.system2
      | TaskComplexityLevel.veryHigh => SystemRecommendation.system2) ∧
    ((assessTaskComplexity task).episodicMemoryRequired = true ↔
      ((assessTaskComplexity task).level = TaskComplexityLevel.high ∨
       (assessTaskComplexity task).level = TaskComplexityLevel.veryHigh)) ∧
    ((assessTaskComplexity task).temporalContextRequired = hasTemporalContext task) ∧
    (Justification.temporalContextDetected ∈ (assessTaskComplexity task).routingJustification ↔
      (((assessTaskComplexity task).level = TaskComplexityLevel.high ∨
        (assessTaskComplexity task).level = TaskComplexityLevel.veryHigh) ∧
       hasTemporalContext task = true)) := by
  refine ⟨by simp [assessTaskComplexity, levelOf], ?_, ?_, ?_, by rfl, ?_⟩ <;>
    · simp only [assessTaskComplexity]
      cases levelOf (complexityScoreOf task) <;>
        cases ht : hasTemporalContext task <;>
          simp_all [routingOf]

set_option maxRecDepth 20000 in
set_option maxHeartbeats 1000000 in
/-- Claim C5, evaluation at the failing input: on a task with a
343-character description containing temporal, coordination and
architecture, and zero dependencies, the shipped scorer produces a
complexity score of 25, level Low, the supabase target and no episodic
memory requirement, where the specification and the repository's own
test documentation expect a score of about 55, level High and the
graphiti target. -/
theorem assessTaskComplexity_scenarioB_eval :
    scenarioBTask.description.length = 343 ∧
    containsSub "temporal".data scenarioBTask.description = true ∧
    containsSub "coordination".data scenarioBTask.description = true ∧
    containsSub "architecture".data scenarioBTask.description = true ∧
    scenarioBTask.dependencies.length = 0 ∧
    (assessTaskComplexity scenarioBTask).complexityScore = 25 ∧
    (assessTaskComplexity scenarioBTask).level = TaskComplexityLevel.low ∧
    (assessTaskComplexity scenarioBTask).mcpServerTarget = McpServerTarget.supabase ∧
    (assessTaskComplexity scenarioBTask).episodicMemoryRequired = false ∧
    (assessTaskComplexity scenarioBTask).temporalContextRequired = true := by
  decide

/-- Claim C1, counterexample: at base score 80 and evidence score 73
with no suspicious patterns, the source computes 80 plus a bonus of 1/2
plus the honesty bonus of 2 and then rounds the clamped 82.5 to the
integer 83, while the claimed rounding to the configured scoring
precision of 2 digits keeps 82.5. -/
theorem applyHonestIncentives_precision_cex :
    ((applyHonestIncentives 80 73 [] DEFAULT_ANTI_OBFUSCATION_CONFIG).adjustedScore : ℚ) ≠
      claimedAdjustedScore 80 73 [] DEFAULT_ANTI_OBFUSCATION_CONFIG 2 := by
  decide

/-- The adjusted score of applyHonestIncentives written as one closed
formula, shared by the theorems below. -/
lemma applyHonestIncentives_score_eq (baseScore evidenceScore : ℚ)
    (suspiciousPatterns : List SuspiciousPattern) (config : AntiObfuscationConfig) :
    (applyHonestIncentives baseScore evidenceScore suspiciousPatterns config).adjustedScore =
      round (max 0 (min 100 (baseScore + evidenceAdjustment evidenceScore config +
        patternAdjustment suspiciousPatterns.length))) := by
  unfold applyHonestIncentives evidenceAdjustment patternAdjustment
  split_ifs <;> ring_nf

/-- Claim C1 as amended: the adjusted score of applyHonestIncentives
is the evidence adjustment and the pattern adjustment applied to the
base score, clamped to the interval from 0 to 100, and rounded to the
nearest integer (not to the configured scoring precision, which the
function never reads). -/
theorem applyHonestIncentives_closed_form (baseScore evidenceScore : ℚ)
    (suspiciousPatterns : List SuspiciousPattern) (config : AntiObfuscationConfig) :
    (applyHonestIncentives baseScore evidenceScore suspiciousPatterns config).adjustedScore =
      round (max 0 (min 100 (baseScore + evidenceAdjustment evidenceScore config +
        patternAdjustment suspiciousPatterns.length))) :=
  applyHonestIncentives_score_eq baseScore evidenceScore suspiciousPatterns config

/-! Claim C2 and claim C8: the manipulation-risk classification and the
evidence-score floor. -/

/-- The evidence-consistency score of validateTaskEvidence is at least
55: at most 20, 15 and 10 points are ever subtracted from the base of
100. -/
theorem validateTaskEvidence_score_ge (task : Task) (summary : List Char)
    (config : AntiObfuscationConfig) :
    55 ≤ (validateTaskEvidence task summary config).score := by
  unfold validateTaskEvidence
  split_ifs <;> simp <;> split_ifs <;> norm_num

/-- Claim C2: the manipulation risk of performAntiObfuscationValidation
is High exactly when at least three suspicious patterns were detected or
the evidence score is below 50, Medium exactly when that fails but at
least one pattern was detected or the evidence score is below the
configured threshold, and Low otherwise. -/
theorem manipulationRisk_classification (task : Task) (summary : List Char)
    (baseScore : ℚ) (config : AntiObfuscationConfig) :
    ((performAntiObfuscationValidation task summary baseScore config).manipulationRisk =
        ManipulationRisk.high ↔
      (3 ≤ (detectInconsistencies summary config).length ∨
        (validateTaskEvidence task summary config).score < 50)) ∧
    ((performAntiObfuscationValidation task summary baseScore config).manipulationRisk =
        ManipulationRisk.medium ↔
      (¬ (3 ≤ (detectInconsistencies summary config).length ∨
            (validateTaskEvidence task summary config).score < 50) ∧
        (1 ≤ (detectInconsistencies summary config).length ∨
          (validateTaskEvidence task summary config).score < config.evidenceThreshold))) ∧
    ((performAntiObfuscationValidation task summary baseScore config).manipulationRisk =
        ManipulationRisk.low ↔
      (¬ (3 ≤ (detectInconsistencies summary config).length ∨
            (validateTaskEvidence task summary config).score < 50) ∧
        ¬ (1 ≤ (detectInconsistencies summary config).length ∨
            (validateTaskEvidence task summary config).score < config.evidenceThreshold))) := by
  simp only [performAntiObfuscationValidation]
  split_ifs <;> simp_all

/-- Claim C8: the evidence-consistency score is always at least 55, so
the below-50 disjunct of the High classification is unreachable and the
risk is High exactly when at least three suspicious patterns were
detected. -/
theorem evidence_floor_and_high_risk (task : Task) (summary : List Char)
    (baseScore : ℚ) (config : AntiObfuscationConfig) :
    55 ≤ (validateTaskEvidence task summary config).score ∧
    ((performAntiObfuscationValidation task summary baseScore config).manipulationRisk =
        ManipulationRisk.high ↔
      3 ≤ (detectInconsistencies summary config).length) := by
  refine ⟨validateTaskEvidence_score_ge task summary config, ?_⟩
  have h := validateTaskEvidence_score_ge task summary config
  have hnot : ¬ (validateTaskEvidence task summary config).score < 50 := by linarith
  simp only [performAntiObfuscationValidation]
  split_ifs with h1 h2 <;> simp_all
  cases h1 with
  | inl hn => exact hn
  | inr hs => linarith

/-- Claim C6, counterexample: on a task whose verificationCriteria is
the empty string, the source skips the criteria check because the empty
string is falsy, returning a score of 100, while the claimed reference
definition treats the field as present, finds a coverage of 0 over the
empty keyword set, and subtracts 15. -/
theorem validateTaskEvidence_presence_cex :
    (validateTaskEvidence emptyCriteriaTask "alpha".data
        DEFAULT_ANTI_OBFUSCATION_CONFIG).score ≠
      claimedEvidenceScore emptyCriteriaTask "alpha".data := by
  decide

set_option maxHeartbeats 2000000 in
/-- Claim C6 as amended: for every task, summary and configuration the
score of validateTaskEvidence equals the claimed reference definition
with presence read as JavaScript truthiness (present and non-empty),
and each of the three issues is recorded exactly when its coverage
check fails. -/
theorem validateTaskEvidence_closed_form (task : Task) (summary : List Char)
    (config : AntiObfuscationConfig) :
    (validateTaskEvidence task summary config).score = amendedEvidenceScore task summary ∧
    (EvidenceIssue.descriptionMismatch ∈ (validateTaskEvidence task summary config).issues ↔
      coverageOf task.description summary < 3/10) ∧
    (EvidenceIssue.criteriaMismatch ∈ (validateTaskEvidence task summary config).issues ↔
      (presentText task.verificationCriteria = true ∧
        coverageOf (task.verificationCriteria.getD []) summary < 2/5)) ∧
    (EvidenceIssue.guideMismatch ∈ (validateTaskEvidence task summary config).issues ↔
      (presentText task.implementationGuide = true ∧
        coverageOf (task.implementationGuide.getD []) summary < 3/10)) := by
  unfold validateTaskEvidence amendedEvidenceScore
  split_ifs <;> simp_all <;> (try split_ifs) <;> (try simp_all) <;>
    (first | rfl | linarith)

set_option maxRecDepth 40000 in
set_option maxHeartbeats 1000000 in
/-- Claim C7, counterexample: appending the configured suspicious
keyword fake to a summary that already carries five suspicious keywords
raises the detected pattern count from 5 to 6 without changing the
capped pattern penalty, but lifts the description coverage above the
0.3 threshold, raising the evidence score from 80 to 100 and the final
adjusted score from 32 to 35. -/
theorem pipeline_suspicious_keyword_cex :
    "fake".data ∈ DEFAULT_ANTI_OBFUSCATION_CONFIG.suspiciousPatternKeywords ∧
    (detectInconsistencies fiveKeywordSummary DEFAULT_ANTI_OBFUSCATION_CONFIG).length = 5 ∧
    (detectInconsistencies (fiveKeywordSummary ++ " fake".data)
        DEFAULT_ANTI_OBFUSCATION_CONFIG).length = 6 ∧
    pipelineAdjustedScore fakeDescriptionTask fiveKeywordSummary 50
        DEFAULT_ANTI_OBFUSCATION_CONFIG <
      pipelineAdjustedScore fakeDescriptionTask (fiveKeywordSummary ++ " fake".data) 50
        DEFAULT_ANTI_OBFUSCATION_CONFIG := by
  decide

/-- Rounding on the rationals is monotone. -/
lemma round_mono_of_le {x y : ℚ} (h : x ≤ y) : round x ≤ round y := by
  rw [round_eq, round_eq]
  exact Int.floor_le_floor (by linarith)

/-- The pattern adjustment never increases as the pattern count
grows. -/
lemma patternAdjustment_antitone {m n : Nat} (h : m ≤ n) :
    patternAdjustment n ≤ patternAdjustment m := by
  have hc : ((m : ℚ)) ≤ (n : ℚ) := by exact_mod_cast h
  unfold patternAdjustment
  split_ifs with h1 h2
  · have hmin := min_le_min (le_refl (20 : ℚ)) (by linarith : ((m : ℚ)) * 4 ≤ (n : ℚ) * 4)
    linarith
  · have hnn : (0 : ℚ) ≤ min 20 ((n : ℚ) * 4) := le_min (by norm_num) (by positivity)
    linarith
  · omega
  · linarith

/-- Claim C7 as amended: with the base score and the evidence score
held fixed, the adjusted score of applyHonestIncentives never increases
as the number of suspicious patterns grows; the full pipeline is not
monotone in added suspicious keywords, because an added keyword can
also raise the evidence-consistency score, as the counterexample
records. -/
theorem applyHonestIncentives_antitone_in_patterns (baseScore evidenceScore : ℚ)
    (config : AntiObfuscationConfig) (p q : List SuspiciousPattern)
    (h : p.length ≤ q.length) :
    (applyHonestIncentives baseScore evidenceScore q config).adjustedScore ≤
      (applyHonestIncentives baseScore evidenceScore p config).adjustedScore := by
  rw [applyHonestIncentives_score_eq, applyHonestIncentives_score_eq]
  refine round_mono_of_le (max_le_max le_rfl (min_le_min le_rfl ?_))
  have := patternAdjustment_antitone h
  linarith

/-- Witness for the amended claim C7 theorem at a concrete instance:
one suspicious pattern scores no higher than none. -/
theorem applyHonestIncentives_antitone_in_patterns_witness :
    (List.length ([] : List SuspiciousPattern) ≤
      [SuspiciousPattern.keywordHit "fake".data].length) ∧
    (applyHonestIncentives 50 80 [SuspiciousPattern.keywordHit "fake".data]
        DEFAULT_ANTI_OBFUSCATION_CONFIG).adjustedScore ≤
      (applyHonestIncentives 50 80 [] DEFAULT_ANTI_OBFUSCATION_CONFIG).adjustedScore :=
  ⟨by decide,
   applyHonestIncentives_antitone_in_patterns 50 80 DEFAULT_ANTI_OBFUSCATION_CONFIG
     [] [SuspiciousPattern.keywordHit "fake".data] (by decide)⟩

/-- A light-profile violation puts the corresponding weight-sum error
in the validator's error list. -/
lemma validate_mem_light {config : DebateProtocolConfig}
    (h : weightSumViolated config.intensitySettings.light) :
    ConfigError.weightSum "light" (weightSum config.intensitySettings.light) ∈
      (validate config).errors := by
  unfold weightSumViolated at h
  unfold validate
  simp only [List.mem_append]
  refine Or.inl (Or.inl (Or.inl (Or.inl (Or.inl ?_))))
  refine List.mem_filterMap.mpr ⟨("light", config.intensitySettings.light), by simp, ?_⟩
  dsimp only
  rw [if_pos h]

/-- A moderate-profile violation puts the corresponding weight-sum
error in the validator's error list. -/
lemma validate_mem_moderate {config : DebateProtocolConfig}
    (h : weightSumViolated config.intensitySettings.moderate) :
    ConfigError.weightSum "moderate" (weightSum config.intensitySettings.moderate) ∈
      (validate config).errors := by
  unfold weightSumViolated at h
  unfold validate
  simp only [List.mem_append]
  refine Or.inl (Or.inl (Or.inl (Or.inl (Or.inl ?_))))
  refine List.mem_filterMap.mpr ⟨("moderate", config.intensitySettings.moderate), by simp, ?_⟩
  dsimp only
  rw [if_pos h]

/-- A rigorous-profile violation puts the corresponding weight-sum
error in the validator's error list. -/
lemma validate_mem_rigorous {config : DebateProtocolConfig}
    (h : weightSumViolated config.intensitySettings.rigorous) :
    ConfigError.weightSum "rigorous" (weightSum config.intensitySettings.rigorous) ∈
      (validate config).errors := by
  unfold weightSumViolated at h
  unfold validate
  simp only [List.mem_append]
  refine Or.inl (Or.inl (Or.inl (Or.inl (Or.inl ?_))))
  refine List.mem_filterMap.mpr ⟨("rigorous", config.intensitySettings.rigorous), by simp, ?_⟩
  dsimp only
  rw [if_pos h]

/-- The validity flag of the validator is the emptiness of its error
list. -/
lemma validate_isValid_eq (config : DebateProtocolConfig) :
    (validate config).isValid = (validate config).errors.isEmpty := rfl

/-- An update whose merged configuration violates the weight-sum
invariant on some profile is rejected with the weight-sum error and
leaves the state unchanged. -/
lemma updateConfig_rejects_of_violation (config : DebateProtocolConfig)
    (updates : DebateProtocolConfigUpdate)
    (hviol : weightSumViolated (mergeConfig config updates).intensitySettings.light ∨
      weightSumViolated (mergeConfig config updates).intensitySettings.moderate ∨
      weightSumViolated (mergeConfig config updates).intensitySettings.rigorous) :
    (updateConfig config updates).1.success = false ∧
    (∃ i s, ConfigError.weightSum i s ∈ (updateConfig config updates).1.errors) ∧
    (updateConfig config updates).2 = config := by
  have hmem : ∃ i s, ConfigError.weightSum i s ∈
      (validate (mergeConfig config updates)).errors := by
    rcases hviol with h | h | h
    · exact ⟨_, _, validate_mem_light h⟩
    · exact ⟨_, _, validate_mem_moderate h⟩
    · exact ⟨_, _, validate_mem_rigorous h⟩
  obtain ⟨i, s, hm⟩ := hmem
  have hne : (validate (mergeConfig config updates)).errors ≠ [] := List.ne_nil_of_mem hm
  have hvalid : (validate (mergeConfig config updates)).isValid = false := by
    rw [validate_isValid_eq]
    cases he : (validate (mergeConfig config updates)).errors with
    | nil => exact absurd he hne
    | cons a l => simp
  unfold updateConfig
  rw [hvalid]
  exact ⟨rfl, ⟨i, s, hm⟩, rfl⟩

/-- A successful update commits exactly the merged configuration. -/
lemma updateConfig_success_state (config : DebateProtocolConfig)
    (updates : DebateProtocolConfigUpdate)
    (hs : (updateConfig config updates).1.success = true) :
    (updateConfig config updates).2 = mergeConfig config updates ∧
    (validate (mergeConfig config updates)).isValid = true := by
  by_cases hv : (validate (mergeConfig config updates)).isValid
  · refine ⟨?_, hv⟩
    simp [updateConfig, hv]
  · exfalso
    simp [updateConfig, hv] at hs

/-- Claim C3: an update whose merged configuration has a profile whose
weights differ from 1 by more than 0.01 is rejected: updateConfig
returns success false together with the weight-sum error message, and
getConfig afterwards returns exactly the configuration active before;
conversely every accepted update leaves every profile's weight sum
within 0.01 of 1. -/
theorem updateConfig_weight_sum_invariant (config : DebateProtocolConfig)
    (updates : DebateProtocolConfigUpdate) :
    ((weightSumViolated (mergeConfig config updates).intensitySettings.light ∨
      weightSumViolated (mergeConfig config updates).intensitySettings.moderate ∨
      weightSumViolated (mergeConfig config updates).intensitySettings.rigorous) →
      ((updateConfig config updates).1.success = false ∧
       (∃ i s, ConfigError.weightSum i s ∈ (updateConfig config updates).1.errors) ∧
       getConfig (updateConfig config updates).2 = getConfig config)) ∧
    ((updateConfig config updates).1.success = true →
      (¬ weightSumViolated (updateConfig config updates).2.intensitySettings.light ∧
       ¬ weightSumViolated (updateConfig config updates).2.intensitySettings.moderate ∧
       ¬ weightSumViolated (updateConfig config updates).2.intensitySettings.rigorous)) := by
  constructor
  · intro hviol
    exact updateConfig_rejects_of_violation config updates hviol
  · intro hs
    obtain ⟨hstate, hvalid⟩ := updateConfig_success_state config updates hs
    rw [hstate]
    refine ⟨?_, ?_, ?_⟩ <;> intro hv
    · have := (updateConfig_rejects_of_violation config updates (Or.inl hv)).1
      rw [hs] at this
      cases this
    · have := (updateConfig_rejects_of_violation config updates (Or.inr (Or.inl hv))).1
      rw [hs] at this
      cases this
    · have := (updateConfig_rejects_of_violation config updates (Or.inr (Or.inr hv))).1
      rw [hs] at this
      cases this

/-- Witness for claim C3 at the scenario-E input: the light weights
summing to 1.2 are rejected, the weight-sum error is reported, and the
configuration is unchanged. -/
theorem updateConfig_weight_sum_invariant_witness :
    (updateConfig DEFAULT_DEBATE_CONFIG scenarioEUpdate).1.success = false ∧
    (∃ i s, ConfigError.weightSum i s ∈
      (updateConfig DEFAULT_DEBATE_CONFIG scenarioEUpdate).1.errors) ∧
    getConfig (updateConfig DEFAULT_DEBATE_CONFIG scenarioEUpdate).2 =
      getConfig DEFAULT_DEBATE_CONFIG :=
  (updateConfig_weight_sum_invariant DEFAULT_DEBATE_CONFIG scenarioEUpdate).1
    (Or.inl (by decide))

/-! Claim C10: a supplied intensity profile replaces the stored one
wholesale. -/

/-- Claim C10: when an accepted update supplies a light profile object,
the resulting configuration's light entry is exactly the supplied
object, not a field-by-field merge: its incentive and processing blocks
are the supplied ones (absent when the supplied object omitted them),
and every part of the configuration the update did not supply keeps its
previous value. -/
theorem updateConfig_replaces_supplied_profile (config : DebateProtocolConfig)
    (p : DebateIntensityConfig) (mod rig : Option DebateIntensityConfig)
    (ao : Option AntiObfuscationSection) (pf : Option PerformanceSection)
    (sc : Option ScoringSection)
    (hs : (updateConfig config ⟨some ⟨some p, mod, rig⟩, ao, pf, sc⟩).1.success = true) :
    (updateConfig config ⟨some ⟨some p, mod, rig⟩, ao, pf, sc⟩).2.intensitySettings.light = p ∧
    (updateConfig config ⟨some ⟨some p, mod, rig⟩, ao, pf, sc⟩).2.intensitySettings.light.incentives =
      p.incentives ∧
    (updateConfig config ⟨some ⟨some p, mod, rig⟩, ao, pf, sc⟩).2.intensitySettings.light.processing =
      p.processing ∧
    (mod = none →
      (updateConfig config ⟨some ⟨some p, mod, rig⟩, ao, pf, sc⟩).2.intensitySettings.moderate =
        config.intensitySettings.moderate) ∧
    (rig = none →
      (updateConfig config ⟨some ⟨some p, mod, rig⟩, ao, pf, sc⟩).2.intensitySettings.rigorous =
        config.intensitySettings.rigorous) ∧
    (ao = none →
      (updateConfig config ⟨some ⟨some p, mod, rig⟩, ao, pf, sc⟩).2.antiObfuscation =
        config.antiObfuscation) ∧
    (pf = none →
      (updateConfig config ⟨some ⟨some p, mod, rig⟩, ao, pf, sc⟩).2.performance =
        config.performance) ∧
    (sc = none →
      (updateConfig config ⟨some ⟨some p, mod, rig⟩, ao, pf, sc⟩).2.scoring =
        config.scoring) := by
  obtain ⟨hstate, -⟩ :=
    updateConfig_success_state config ⟨some ⟨some p, mod, rig⟩, ao, pf, sc⟩ hs
  rw [hstate]
  refine ⟨rfl, rfl, rfl, ?_, ?_, ?_, ?_, ?_⟩ <;> rintro rfl <;> rfl

/-- Witness for claim C10: updating the default configuration with a
light profile carrying only weights (one half, one quarter, one
quarter) succeeds, stores exactly that object with absent incentive and
processing blocks, and leaves the other profiles and sections
untouched. -/
theorem updateConfig_replaces_supplied_profile_witness :
    (updateConfig DEFAULT_DEBATE_CONFIG
        ⟨some ⟨some ⟨⟨1/2, 1/4, 1/4⟩, none, none⟩, none, none⟩, none, none, none⟩).1.success =
      true ∧
    (updateConfig DEFAULT_DEBATE_CONFIG
        ⟨some ⟨some ⟨⟨1/2, 1/4, 1/4⟩, none, none⟩, none, none⟩, none, none, none⟩).2.intensitySettings.light =
      ⟨⟨1/2, 1/4, 1/4⟩, none, none⟩ ∧
    (updateConfig DEFAULT_DEBATE_CONFIG
        ⟨some ⟨some ⟨⟨1/2, 1/4, 1/4⟩, none, none⟩, none, none⟩, none, none, none⟩).2.intensitySettings.light.incentives =
      none ∧
    (updateConfig DEFAULT_DEBATE_CONFIG
        ⟨some ⟨some ⟨⟨1/2, 1/4, 1/4⟩, none, none⟩, none, none⟩, none, none, none⟩).2.intensitySettings.moderate =
      DEFAULT_DEBATE_CONFIG.intensitySettings.moderate ∧
    (updateConfig DEFAULT_DEBATE_CONFIG
        ⟨some ⟨some ⟨⟨1/2, 1/4, 1/4⟩, none, none⟩, none, none⟩, none, none, none⟩).2.scoring =
      DEFAULT_DEBATE_CONFIG.scoring :=
  have hs : (updateConfig DEFAULT_DEBATE_CONFIG
      ⟨some ⟨some ⟨⟨1/2, 1/4, 1/4⟩, none, none⟩, none, none⟩, none, none, none⟩).1.success =
        true := by decide
  have h := updateConfig_replaces_supplied_profile DEFAULT_DEBATE_CONFIG
    ⟨⟨1/2, 1/4, 1/4⟩, none, none⟩ none none none none none hs
  ⟨hs, h.1, h.2.1, h.2.2.2.1 rfl, h.2.2.2.2.2.2.2 rfl⟩

/-- Claim C9: for a stored completed task, an update touching any field
other than summary or relatedFiles returns null and leaves the stored
list completely unchanged, while an update touching only summary and
relatedFiles is applied: the stored list gets the updated task, whose
protected fields are unchanged, whose updatedAt is the current time,
and whose summary and relatedFiles take the supplied values. -/
theorem updateTask_completed_protection (tasks : List Task) (taskId : String)
    (updates : TaskUpdates) (now : Nat) (i : Nat) (stored : Task)
    (hfind : tasks.findIdx? (fun task => task.id = taskId) = some i)
    (hget : tasks[i]? = some stored)
    (hcompleted : stored.status = TaskStatus.completed) :
    ((∃ f ∈ attemptedFields updates, ¬ f ∈ allowedFields) →
      updateTask tasks taskId updates now = (tasks, none)) ∧
    ((∀ f ∈ attemptedFields updates, f ∈ allowedFields) →
      (updateTask tasks taskId updates now =
        (tasks.set i (applyUpdates stored updates now),
          some (applyUpdates stored updates now)) ∧
       (applyUpdates stored updates now).id = stored.id ∧
       (applyUpdates stored updates now).name = stored.name ∧
       (applyUpdates stored updates now).description = stored.description ∧
       (applyUpdates stored updates now).notes = stored.notes ∧
       (applyUpdates stored updates now).status = stored.status ∧
       (applyUpdates stored updates now).dependencies = stored.dependencies ∧
       (applyUpdates stored updates now).createdAt = stored.createdAt ∧
       (applyUpdates stored updates now).completedAt = stored.completedAt ∧
       (applyUpdates stored updates now).analysisResult = stored.analysisResult ∧
       (applyUpdates stored updates now).implementationGuide = stored.implementationGuide ∧
       (applyUpdates stored updates now).verificationCriteria = stored.verificationCriteria ∧
       (applyUpdates stored updates now).completionMetadata = stored.completionMetadata ∧
       (applyUpdates stored updates now).updatedAt = now ∧
       (applyUpdates stored updates now).summary =
         (match updates.summary with | some v => some v | none => stored.summary) ∧
       (applyUpdates stored updates now).relatedFiles =
         (match updates.relatedFiles with | some v => some v | none => stored.relatedFiles))) := by
  constructor
  · intro hdis
    obtain ⟨f, hf, hnall⟩ := hdis
    have hfilter :
        ¬ ((attemptedFields updates).filter (fun field => ¬ allowedFields.contains field)).isEmpty = true := by
      have hmem : f ∈ (attemptedFields updates).filter
          (fun field => ¬ allowedFields.contains field) := by
        refine List.mem_filter.mpr ⟨hf, ?_⟩
        simpa using hnall
      intro hemp
      rw [List.isEmpty_iff] at hemp
      rw [hemp] at hmem
      cases hmem
    simp only [updateTask, hfind, hget]
    rw [if_pos ⟨hcompleted, by simpa using hfilter⟩]
  · intro hall
    have hid : updates.id = none := by
      cases h : updates.id with
      | none => rfl
      | some v => exact absurd (hall "id" (by simp [attemptedFields, h])) (by decide)
    have hname : updates.name = none := by
      cases h : updates.name with
      | none => rfl
      | some v => exact absurd (hall "name" (by simp [attemptedFields, h])) (by decide)
    have hdescription : updates.description = none := by
      cases h : updates.description with
      | none => rfl
      | some v => exact absurd (hall "description" (by simp [attemptedFields, h])) (by decide)
    have hnotes : updates.notes = none := by
      cases h : updates.notes with
      | none => rfl
      | some v => exact absurd (hall "notes" (by simp [attemptedFields, h])) (by decide)
    have hstatus : updates.status = none := by
      cases h : updates.status with
      | none => rfl
      | some v => exact absurd (hall "status" (by simp [attemptedFields, h])) (by decide)
    have hdependencies : updates.dependencies = none := by
      cases h : updates.dependencies with
      | none => rfl
      | some v => exact absurd (hall "dependencies" (by simp [attemptedFields, h])) (by decide)
    have hcreatedAt : updates.createdAt = none := by
      cases h : updates.createdAt with
      | none => rfl
      | some v => exact absurd (hall "createdAt" (by simp [attemptedFields, h])) (by decide)
    have hupdatedAt : updates.updatedAt = none := by
      cases h : updates.updatedAt with
      | none => rfl
      | some v => exact absurd (hall "updatedAt" (by simp [attemptedFields, h])) (by decide)
    have hcompletedAt : updates.completedAt = none := by
      cases h : updates.completedAt with
      | none => rfl
      | some v => exact absurd (hall "completedAt" (by simp [attemptedFields, h])) (by decide)
    have hanalysisResult : updates.analysisResult = none := by
      cases h : updates.analysisResult with
      | none => rfl
      | some v => exact absurd (hall "analysisResult" (by simp [attemptedFields, h])) (by decide)
    have himplementationGuide : updates.implementationGuide = none := by
      cases h : updates.implementationGuide with
      | none => rfl
      | some v =>
        exact absurd (hall "implementationGuide" (by simp [attemptedFields, h])) (by decide)
    have hverificationCriteria : updates.verificationCriteria = none := by
      cases h : updates.verificationCriteria with
      | none => rfl
      | some v =>
        exact absurd (hall "verificationCriteria" (by simp [attemptedFields, h])) (by decide)
    have hcompletionMetadata : updates.completionMetadata = none := by
      cases h : updates.completionMetadata with
      | none => rfl
      | some v =>
        exact absurd (hall "completionMetadata" (by simp [attemptedFields, h])) (by decide)
    have hfilter :
        ((attemptedFields updates).filter (fun field => ¬ allowedFields.contains field)).isEmpty = true := by
      rw [List.isEmpty_iff, List.filter_eq_nil_iff]
      intro f hf
      simpa using hall f hf
    constructor
    · have hcond : ¬ (stored.status = TaskStatus.completed ∧
          ¬ ((attemptedFields updates).filter
              (fun field => ¬ allowedFields.contains field)).isEmpty = true) := by
        intro hcontra
        exact hcontra.2 hfilter
      simp only [updateTask, hfind, hget]
      rw [if_neg hcond]
    · simp [applyUpdates, hid, hname, hdescription, hnotes, hstatus, hdependencies,
        hcreatedAt, hcompletedAt, hanalysisResult, himplementationGuide,
        hverificationCriteria, hcompletionMetadata]

/-- Witness for claim C9: on a one-element store holding a completed
task, an update touching the status field is rejected with the store
unchanged, and an update touching only the summary field is applied. -/
theorem updateTask_completed_protection_witness :
    (updateTask [completedStoredTask] "done-task"
        { emptyTaskUpdates with status := some TaskStatus.pending } 9 =
      ([completedStoredTask], none)) ∧
    (updateTask [completedStoredTask] "done-task"
        { emptyTaskUpdates with summary := some "new summary".data } 9 =
      ([completedStoredTask].set 0
          (applyUpdates completedStoredTask
            { emptyTaskUpdates with summary := some "new summary".data } 9),
        some (applyUpdates completedStoredTask
          { emptyTaskUpdates with summary := some "new summary".data } 9))) :=
  ⟨(updateTask_completed_protection [completedStoredTask] "done-task"
      { emptyTaskUpdates with status := some TaskStatus.pending } 9 0 completedStoredTask
      (by decide) (by decide) (by decide)).1
      ⟨"status", by decide, by decide⟩,
   ((updateTask_completed_protection [completedStoredTask] "done-task"
      { emptyTaskUpdates with summary := some "new summary".data } 9 0 completedStoredTask
      (by decide) (by decide) (by decide)).2
      (by decide)).1⟩

end Shrimp
